import Mathlib

/-!
Verification of the ride-monitor backend's notification engine
(`disneyDiningService.js`): the ride-readiness evaluator, the
scheduled-event reminder evaluator, the push-notification dispatcher and
the daily archival sweep, shallowly embedded as executable Lean
definitions over the same data shapes the source manipulates.
-/

namespace RideMonitor

/-- Ride status as produced by `organizeParkData` (the upstream snapshot
normalizer): one of OPERATING, DOWN, REFURBISHMENT, CLOSED, or any other
upstream string (collapsed here into UNKNOWN). -/
inductive RideStatus
  | OPERATING
  | DOWN
  | REFURBISHMENT
  | CLOSED
  | UNKNOWN
  deriving DecidableEq, Repr

/-- A ride entry of the live snapshot (`parkDataCache[...].lands[...]`),
restricted to the fields the notification engine reads. -/
structure Ride where
  id : String
  name : String
  currentWait : Nat
  status : RideStatus
  deriving DecidableEq, Repr

/-- A per-(user, rideId) preference: `{enabled, maxWait}`. -/
structure RidePreference where
  enabled : Bool
  maxWait : Nat
  deriving DecidableEq, Repr

/-- A user's preference map `userPreferences[userId]`, keyed by rideId. -/
abbrev PrefMap := List (String × RidePreference)

/-- The `pref && pref.enabled && ride.currentWait <= pref.maxWait &&
(ride.status === 'OPERATING' || ride.status === 'DOWN')` test of
`checkAndNotifyUsers` (and, identically, of the `ready-rides` route):
a ride with no preference entry never qualifies. -/
def rideQualifies (preferences : PrefMap) (ride : Ride) : Bool :=
  match preferences.lookup ride.id with
  | some pref =>
      pref.enabled && decide (ride.currentWait ≤ pref.maxWait) &&
        (ride.status == RideStatus.OPERATING || ride.status == RideStatus.DOWN)
  | none => false

/-- The `readyRides` list a cycle builds for one user: the snapshot
(flattened in its iteration order over parks and lands) filtered by the
qualification test. -/
def readyRides (preferences : PrefMap) (snapshot : List Ride) : List Ride :=
  snapshot.filter (fun ride => rideQualifies preferences ride)

/-- The `currentReadyRideIds` set built alongside `readyRides` (the code
adds `ride.id` for exactly the rides it pushes onto `readyRides`). -/
def currentReadyRideIds (preferences : PrefMap) (snapshot : List Ride) : List String :=
  (readyRides preferences snapshot).map Ride.id

/-- `newReadyRides = readyRides.filter(ride => !notifiedRides[userId].has(ride.id))`. -/
def newReadyRides (preferences : PrefMap) (snapshot : List Ride)
    (notified : List String) : List Ride :=
  (readyRides preferences snapshot).filter (fun ride => !(notified.contains ride.id))

/-- A push message as assembled by the engine: `to` is the Expo push
token, `msgType` is the `data.type` discriminator the code attaches
(`ride`, `show`, `show-warning`, `dining`, `lightning-lane`). -/
structure PushMessage where
  toAddr : String
  title : String
  body : String
  msgType : String
  deriving DecidableEq, Repr

/-- The notification body `checkAndNotifyUsers` builds from a non-empty
`newReadyRides` list: one ride names it and its wait, several name the
first plus a count with `rideCount > 2 ? 's are' : ' is'` grammar. -/
def buildRideBody (newReady : List Ride) : String :=
  match newReady with
  | [] => ""
  | firstRide :: _ =>
      if newReady.length == 1 then
        firstRide.name ++ (" is now " ++ (toString firstRide.currentWait ++ " min wait!"))
      else
        firstRide.name ++ (" and " ++ (toString (newReady.length - 1) ++ (" other ride" ++
          ((if newReady.length > 2 then "s are" else " is") ++ " ready!"))))

/-- The message-body rule exactly as the spec words it (for comparison
with `buildRideBody`): one newly-ready ride names it and its wait; more
than one names the first plus a count of the remaining rides, with
singular grammar for exactly one other ride and plural grammar
otherwise. -/
def specRideBody (newReady : List Ride) : String :=
  match newReady with
  | [] => ""
  | [onlyRide] =>
      onlyRide.name ++ (" is now " ++ (toString onlyRide.currentWait ++ " min wait!"))
  | firstRide :: rest =>
      if rest.length == 1 then
        firstRide.name ++ " and 1 other ride is ready!"
      else
        firstRide.name ++ (" and " ++ (toString rest.length ++ " other rides are ready!"))

/-- Per-user mutable state the readiness cycle touches: the registered
push token (`userDeviceTokens[userId]`, absent = `none`) and the
previously-notified ride-id set (`notifiedRides[userId]`). -/
structure UserState where
  token : Option String
  notified : List String
  deriving DecidableEq, Repr

/-- One user's slice of `checkAndNotifyUsers`: skip the user entirely
when the token is missing or fails the gateway's validity test
(`!pushToken || !Expo.isExpoPushToken(pushToken)` → `continue`);
otherwise compute the ready rides, queue at most one message (only when
`newReadyRides` is non-empty), and replace `notifiedRides[userId]` with
`currentReadyRideIds` — before any dispatch happens, hence independent
of delivery success. `isValid` stands for the external
`Expo.isExpoPushToken`. -/
def processUser (isValid : String → Bool) (preferences : PrefMap)
    (snapshot : List Ride) (u : UserState) : List PushMessage × UserState :=
  match u.token with
  | none => ([], u)
  | some tok =>
      if !(isValid tok) then ([], u)
      else
        let ready := readyRides preferences snapshot
        let newReady := ready.filter (fun ride => !(u.notified.contains ride.id))
        let msgs :=
          if newReady.isEmpty then []
          else [{ toAddr := tok, title := "🎢 Ride Ready!",
                  body := buildRideBody newReady, msgType := "ride" : PushMessage }]
        (msgs, { u with notified := ready.map Ride.id })

/-- A show schedule item (`userShowSchedules[userId][date][i]`). Times
are absolute milliseconds, matching the code's `new Date(...).getTime()`
arithmetic; `travelTime` is in minutes. -/
structure ShowItem where
  showId : String
  showName : String
  selectedTime : Int
  travelTime : Int
  notified : Bool
  finalWarningNotified : Bool
  deriving DecidableEq, Repr

/-- A dining schedule item (`userDiningSchedules[userId][date][i]`). -/
structure DiningItem where
  id : String
  restaurantName : String
  time : Int
  diningType : String
  travelTime : Int
  notified : Bool
  deriving DecidableEq, Repr

/-- A Lightning Lane entry (`userLightningLanes[userId][date][rideId]`). -/
structure LaneItem where
  rideName : String
  returnTime : Int
  travelTime : Int
  notified : Bool
  deriving DecidableEq, Repr

/-- The "head to show" message (locale time formatting of the body is
elided; the `data.type` discriminator is `show`). -/
def showReminderMsg (tok : String) (s : ShowItem) : PushMessage :=
  { toAddr := tok, title := "🎭 Time to Head to Show!",
    body := s.showName ++ " - Leave now!", msgType := "show" }

/-- The "starting soon" final-warning message (`data.type` is
`show-warning`). -/
def showFinalWarningMsg (tok : String) (s : ShowItem) : PushMessage :=
  { toAddr := tok, title := "🎭 Show Starting Soon!",
    body := s.showName ++ " starts in 5 minutes!", msgType := "show-warning" }

/-- The dining reminder message (`data.type` is `dining`). -/
def diningReminderMsg (tok : String) (d : DiningItem) : PushMessage :=
  { toAddr := tok, title := "🍽️ Dining Reminder!",
    body := d.restaurantName ++ " - Time to go!", msgType := "dining" }

/-- The Lightning Lane reminder message (`data.type` is
`lightning-lane`). -/
def laneReminderMsg (tok : String) (lane : LaneItem) : PushMessage :=
  { toAddr := tok, title := "⚡ Lightning Lane Time!",
    body := lane.rideName ++ " - Head over now!", msgType := "lightning-lane" }

/-- The show branch of `checkEventReminders` for one item:
`reminderTime = selectedTime − travelTime·60000`, `finalWarningTime =
selectedTime − 5·60000`; each stage fires (queues its message and flips
its flag) iff `now ≥` its threshold and its flag is still false, the two
stages independent of one another. -/
def evalShow (now : Int) (tok : String) (s : ShowItem) :
    List PushMessage × ShowItem :=
  let reminderTime := s.selectedTime - s.travelTime * 60000
  let finalWarningTime := s.selectedTime - 5 * 60000
  let fireMain := decide (reminderTime ≤ now) && !s.notified
  let s1 := if fireMain then { s with notified := true } else s
  let msgs1 := if fireMain then [showReminderMsg tok s] else []
  let fireFinal := decide (finalWarningTime ≤ now) && !s1.finalWarningNotified
  let s2 := if fireFinal then { s1 with finalWarningNotified := true } else s1
  let msgs2 := if fireFinal then msgs1 ++ [showFinalWarningMsg tok s1] else msgs1
  (msgs2, s2)

/-- The dining branch of `checkEventReminders` for one item: a single
reminder stage at `time − travelTime·60000`. -/
def evalDining (now : Int) (tok : String) (d : DiningItem) :
    List PushMessage × DiningItem :=
  let reminderTime := d.time - d.travelTime * 60000
  if decide (reminderTime ≤ now) && !d.notified then
    ([diningReminderMsg tok d], { d with notified := true })
  else ([], d)

/-- The Lightning Lane branch of `checkEventReminders` for one entry: a
single reminder stage at `returnTime − travelTime·60000`. -/
def evalLane (now : Int) (tok : String) (lane : LaneItem) :
    List PushMessage × LaneItem :=
  let reminderTime := lane.returnTime - lane.travelTime * 60000
  if decide (reminderTime ≤ now) && !lane.notified then
    ([laneReminderMsg tok lane], { lane with notified := true })
  else ([], lane)

/-- One user's slice of today's schedule, the unit `checkEventReminders`
mutates: `userShowSchedules[userId][today]`,
`userDiningSchedules[userId][today]`,
`userLightningLanes[userId][today]`. -/
structure UserDay where
  shows : List ShowItem
  dining : List DiningItem
  lanes : List (String × LaneItem)
  deriving DecidableEq, Repr

/-- `checkEventReminders` restricted to one user with a valid token on
today's date: each of the three loops maps its per-item evaluator over
the respective list, collecting the queued messages in loop order. -/
def checkEventReminders (now : Int) (tok : String) (day : UserDay) :
    List PushMessage × UserDay :=
  ( (day.shows.map (fun s => (evalShow now tok s).1)).flatten ++
      ((day.dining.map (fun d => (evalDining now tok d).1)).flatten ++
        (day.lanes.map (fun p => (evalLane now tok p.2).1)).flatten),
    { shows := day.shows.map (fun s => (evalShow now tok s).2)
      dining := day.dining.map (fun d => (evalDining now tok d).2)
      lanes := day.lanes.map (fun p => (p.1, (evalLane now tok p.2).2)) } )

/-- A per-message delivery ticket from the push gateway
(`expo.sendPushNotificationsAsync`): `status` is `ok` or `error`,
`errorDetail` models `ticket.details.error`. -/
structure PushTicket where
  status : String
  errorDetail : Option String
  deriving DecidableEq, Repr

/-- Deleting from `userDeviceTokens` every user whose stored token
equals `tok` (the code's `Object.entries(...).forEach` with `delete`). -/
def removeToken (tokens : List (String × String)) (tok : String) :
    List (String × String) :=
  tokens.filter (fun p => !(p.2 == tok))

/-- Reconciling one (ticket, message) pair: a ticket with
`status === 'error'` and `details.error === 'DeviceNotRegistered'`
removes every registration holding the message's destination token;
every other ticket leaves the store untouched. -/
def ticketStep (toks : List (String × String)) (tm : PushTicket × PushMessage) :
    List (String × String) :=
  if tm.1.status == "error" && tm.1.errorDetail == some "DeviceNotRegistered" then
    removeToken toks tm.2.toAddr
  else toks

/-- Processing one successfully-submitted chunk's tickets
(`ticketChunk.forEach((ticket, index) => ...)`, pairing each ticket with
`chunk[index]`). -/
def processTicketChunk (chunk : List PushMessage) (tickets : List PushTicket)
    (tokens : List (String × String)) : List (String × String) :=
  (tickets.zip chunk).foldl ticketStep tokens

/-- `sendPushNotifications` over pre-chunked messages (chunking itself is
the external `expo.chunkPushNotifications`): submit every chunk in order
to the gateway; a throwing chunk (`gateway _ = none`) is caught and
skipped, a returned ticket list is reconciled against the token store.
Returns the chunks submitted (in order) and the resulting token store. -/
def sendPushNotifications (gateway : List PushMessage → Option (List PushTicket))
    (chunks : List (List PushMessage)) (tokens : List (String × String)) :
    List (List PushMessage) × List (String × String) :=
  chunks.foldl
    (fun acc chunk =>
      match gateway chunk with
      | some tickets => (acc.1 ++ [chunk], processTicketChunk chunk tickets acc.2)
      | none => (acc.1 ++ [chunk], acc.2))
    ([], tokens)

/-- HTTP method of a registered Express route. -/
inductive HttpMethod
  | GET
  | POST
  | PUT
  | DELETE
  deriving DecidableEq, Repr

/-- A registered Express route. -/
structure Route where
  method : HttpMethod
  path : String
  deriving DecidableEq, Repr

/-- Every route the server registers (`app.get/post/put/delete` calls in
source order; commented-out registrations excluded). -/
def apiRoutes : List Route :=
  [ ⟨HttpMethod.GET, "/health"⟩,
    ⟨HttpMethod.GET, "/api/parks"⟩,
    ⟨HttpMethod.GET, "/api/parks/:parkId/wait-times"⟩,
    ⟨HttpMethod.GET, "/api/parks/:parkId/shows"⟩,
    ⟨HttpMethod.GET, "/api/parks/:parkId/restaurants"⟩,
    ⟨HttpMethod.GET, "/api/parks/:parkId/enhanced-dining"⟩,
    ⟨HttpMethod.GET, "/api/parks/lightning-lane-rides"⟩,
    ⟨HttpMethod.POST, "/api/users/:userId/preferences"⟩,
    ⟨HttpMethod.GET, "/api/users/:userId/preferences"⟩,
    ⟨HttpMethod.GET, "/api/users/:userId/ready-rides"⟩,
    ⟨HttpMethod.POST, "/api/users/:userId/register-device"⟩,
    ⟨HttpMethod.POST, "/api/users/:userId/unregister-device"⟩,
    ⟨HttpMethod.POST, "/api/users/:userId/shows"⟩,
    ⟨HttpMethod.GET, "/api/users/:userId/shows"⟩,
    ⟨HttpMethod.DELETE, "/api/users/:userId/shows/:showId"⟩,
    ⟨HttpMethod.POST, "/api/users/:userId/dining"⟩,
    ⟨HttpMethod.GET, "/api/users/:userId/dining"⟩,
    ⟨HttpMethod.PUT, "/api/users/:userId/dining/:diningId"⟩,
    ⟨HttpMethod.DELETE, "/api/users/:userId/dining/:diningId"⟩,
    ⟨HttpMethod.POST, "/api/users/:userId/lightning-lane"⟩,
    ⟨HttpMethod.GET, "/api/users/:userId/lightning-lane"⟩,
    ⟨HttpMethod.DELETE, "/api/users/:userId/lightning-lane/:rideId"⟩,
    ⟨HttpMethod.GET, "/api/users/:userId/archives"⟩,
    ⟨HttpMethod.DELETE, "/api/users/:userId/archives/:date"⟩,
    ⟨HttpMethod.POST, "/api/refresh"⟩,
    ⟨HttpMethod.GET, "/api/debug/devices"⟩,
    ⟨HttpMethod.POST, "/api/debug/check-notifications"⟩,
    ⟨HttpMethod.GET, "/api/parks/:parkId/dining"⟩,
    ⟨HttpMethod.GET, "/api/parks/:parkId/shows"⟩ ]

/-- The body of `PUT /api/users/:userId/dining/:diningId` once the item
is found: overwrite each field that is present in the request, then
unconditionally `dining.notified = false`. -/
def updateDining (d : DiningItem) (time : Option Int) (dtype : Option String)
    (travelTime : Option Int) : DiningItem :=
  { d with
    time := time.getD d.time
    diningType := dtype.getD d.diningType
    travelTime := travelTime.getD d.travelTime
    notified := false }

/-- Lexicographic order on character lists: the semantics of the
JavaScript `<` operator on the `YYYY-MM-DD` date-key strings the
archival sweep compares. -/
def jsLtChars : List Char → List Char → Bool
  | _, [] => false
  | [], _ :: _ => true
  | a :: as, b :: bs => if a < b then true else if b < a then false else jsLtChars as bs

/-- JavaScript string `<` (code-unit lexicographic; identical to
code-point order on the ASCII date keys in play). -/
def jsStrLt (a b : String) : Bool := jsLtChars a.data b.data

/-- An archive entry `archivedSchedules[userId][date]`. -/
structure ArchiveEntry where
  shows : List ShowItem
  dining : List DiningItem
  lightningLanes : List (String × LaneItem)
  deriving DecidableEq, Repr

/-- The four global schedule stores the archival sweep touches, each an
association list mirroring the corresponding nested JS object. -/
structure ScheduleStore where
  userShowSchedules : List (String × List (String × List ShowItem))
  userDiningSchedules : List (String × List (String × List DiningItem))
  userLightningLanes : List (String × List (String × List (String × LaneItem)))
  archivedSchedules : List (String × List (String × ArchiveEntry))
  deriving DecidableEq, Repr

/-- `m[u]?.[d]` on a nested user→date map. -/
def lookup2 {α : Type} (m : List (String × List (String × α))) (u d : String) :
    Option α :=
  match m.lookup u with
  | some dm => dm.lookup d
  | none => none

/-- Key assignment on a date map (overwrite or append). -/
def setKey {α : Type} (dm : List (String × α)) (d : String) (v : α) :
    List (String × α) :=
  if (dm.lookup d).isSome then
    dm.map (fun q => if q.1 = d then (d, v) else q)
  else dm ++ [(d, v)]

/-- `if (!m[u]) m[u] = {}; m[u][d] = v` on a nested user→date map. -/
def setNested {α : Type} (m : List (String × List (String × α))) (u d : String)
    (v : α) : List (String × List (String × α)) :=
  if (m.lookup u).isSome then
    m.map (fun p => if p.1 = u then (p.1, setKey p.2 d v) else p)
  else m ++ [(u, [(d, v)])]

/-- `delete m[u]?.[d]`: drops the date key from user `u`'s map when that
user has a map at all, a no-op otherwise. -/
def removeDate {α : Type} (m : List (String × List (String × α))) (u d : String) :
    List (String × List (String × α)) :=
  m.map (fun p => if p.1 = u then (p.1, p.2.filter (fun q => !(q.1 == d))) else p)

/-- The body of the sweep for one past date found in `userId`'s show
schedule: record the archive entry from the current shows/dining/
Lightning Lane contents, then delete the date from all three live
stores. -/
def archiveOneDate (userId date : String) (shows : List ShowItem)
    (st : ScheduleStore) : ScheduleStore :=
  { archivedSchedules := setNested st.archivedSchedules userId date
      { shows := shows
        dining := (lookup2 st.userDiningSchedules userId date).getD []
        lightningLanes := (lookup2 st.userLightningLanes userId date).getD [] }
    userShowSchedules := removeDate st.userShowSchedules userId date
    userDiningSchedules := removeDate st.userDiningSchedules userId date
    userLightningLanes := removeDate st.userLightningLanes userId date }

/-- `autoArchivePastDates(today)`: iterate over a snapshot of
`Object.entries(userShowSchedules)` — and only over it — archiving every
date `< today` found there. Dates present only in the dining or
Lightning Lane stores are never visited. -/
def autoArchivePastDates (today : String) (st : ScheduleStore) : ScheduleStore :=
  st.userShowSchedules.foldl
    (fun acc userEntry =>
      userEntry.2.foldl
        (fun acc2 dateEntry =>
          if jsStrLt dateEntry.1 today then
            archiveOneDate userEntry.1 dateEntry.1 dateEntry.2 acc2
          else acc2)
        acc)
    st

/-- The token store `sendPushNotifications` leaves behind: each chunk in
order either throws (no reconciliation) or has its tickets applied. -/
def tokensAfter (gateway : List PushMessage → Option (List PushTicket))
    (chunks : List (List PushMessage)) (tokens : List (String × String)) :
    List (String × String) :=
  chunks.foldl
    (fun toks chunk =>
      match gateway chunk with
      | some tickets => processTicketChunk chunk tickets toks
      | none => toks)
    tokens

/-- The guard `pushToken && Expo.isExpoPushToken(pushToken)` of the
notification loops: false when the user has no registered token or the
stored token fails the validity test. -/
def hasValidToken (isValid : String → Bool) (u : UserState) : Bool :=
  match u.token with
  | some tok => isValid tok
  | none => false

/-! Concrete instances used by the spec's scenarios and by witnesses. -/

/-- The snapshot entry of the spec's concrete readiness scenario. -/
def rideEx : Ride :=
  { id := "R1", name := "Space Mountain", currentWait := 25,
    status := RideStatus.OPERATING }

/-- The preference map of the spec's concrete readiness scenario. -/
def prefsEx : PrefMap := [("R1", { enabled := true, maxWait := 30 })]

/-- A validity test that accepts every token (stand-in for
`Expo.isExpoPushToken` on a well-formed token). -/
def validAlways : String → Bool := fun _ => true

/-- A user with a registered token and an empty notified set. -/
def userEx : UserState := { token := some "ExponentPushToken-abc", notified := [] }

/-- A user with no registered device token. -/
def userNoToken : UserState := { token := none, notified := ["R1"] }

/-- The spec's concrete show scenario: 14:00 show (here ms since local
midnight), 20 minutes travel time, neither flag set. -/
def showEx : ShowItem :=
  { showId := "s1", showName := "Fantasmic!", selectedTime := 50400000,
    travelTime := 20, notified := false, finalWarningNotified := false }

/-- A dining reservation on a past date, for the archival scenarios. -/
def pastDiningItem : DiningItem :=
  { id := "d1", restaurantName := "Blue Bayou", time := 0,
    diningType := "reservation", travelTime := 10, notified := true }

/-- A show entry on a past date, for the archival scenarios. -/
def pastShowItem : ShowItem :=
  { showId := "s0", showName := "Fantasmic!", selectedTime := 0,
    travelTime := 15, notified := true, finalWarningNotified := true }

/-- A store where user `u1`'s past date `2024-01-01` appears only in the
dining schedules (no show entry that day). -/
def diningOnlyStore : ScheduleStore :=
  { userShowSchedules := []
    userDiningSchedules := [("u1", [("2024-01-01", [pastDiningItem])])]
    userLightningLanes := []
    archivedSchedules := [] }

/-- The same past dining date, but with a show entry on that date as
well, so the sweep visits it. -/
def mixedStore : ScheduleStore :=
  { userShowSchedules := [("u1", [("2024-01-01", [pastShowItem])])]
    userDiningSchedules := [("u1", [("2024-01-01", [pastDiningItem])])]
    userLightningLanes := []
    archivedSchedules := [] }

/-- The token store of the dispatcher scenario: user `u1` holds the token
the gateway will report as dead. -/
def tokenStoreEx : List (String × String) := [("u1", "tokBad"), ("u2", "tokGood")]

/-- A message addressed to the soon-to-be-invalid token. -/
def msgBad : PushMessage :=
  { toAddr := "tokBad", title := "🎢 Ride Ready!", body := "b", msgType := "ride" }

/-- A message addressed to a healthy token. -/
def msgGood : PushMessage :=
  { toAddr := "tokGood", title := "🎢 Ride Ready!", body := "b", msgType := "ride" }

/-- The terminal `DeviceNotRegistered` delivery result. -/
def ticketBad : PushTicket :=
  { status := "error", errorDetail := some "DeviceNotRegistered" }

/-- A gateway that throws on the chunk `[msgGood]` and reports
`DeviceNotRegistered` for the chunk `[msgBad]`. -/
def gatewayEx : List PushMessage → Option (List PushTicket) := fun chunk =>
  if chunk = [msgBad] then some [ticketBad] else none

/-- Characterization of `rideQualifies` as a proposition. -/
theorem rideQualifies_iff (preferences : PrefMap) (ride : Ride) :
    rideQualifies preferences ride = true ↔
      ∃ pref, preferences.lookup ride.id = some pref ∧ pref.enabled = true ∧
        ride.currentWait ≤ pref.maxWait ∧
        (ride.status = RideStatus.OPERATING ∨ ride.status = RideStatus.DOWN) := by
  unfold rideQualifies
  cases h : preferences.lookup ride.id with
  | none => simp
  | some pref =>
      simp only [Bool.and_eq_true, Bool.or_eq_true, beq_iff_eq, decide_eq_true_eq,
        Option.some.injEq]
      constructor
      · rintro ⟨⟨he, hw⟩, hs⟩
        exact ⟨pref, rfl, he, hw, hs⟩
      · rintro ⟨p, hp, he, hw, hs⟩
        cases hp
        exact ⟨⟨he, hw⟩, hs⟩

/-- Membership in a `List.contains` test, specialized to ride-id lists. -/
theorem contains_iff (l : List String) (a : String) : l.contains a = true ↔ a ∈ l :=
  List.elem_iff

/-- C2: a ride qualifies as ready exactly when a preference entry for it
exists with `enabled = true`, `currentWait ≤ maxWait` and status
OPERATING or DOWN; a ride with no preference entry never qualifies, and
a preference whose ride is absent from the snapshot never qualifies
(`rideQualifies` and `readyRides` are total functions, so no evaluation
can raise an error). -/
theorem readyRides_qualification (preferences : PrefMap) (snapshot : List Ride)
    (ride : Ride) :
    (ride ∈ readyRides preferences snapshot ↔
      ride ∈ snapshot ∧ ∃ pref, preferences.lookup ride.id = some pref ∧
        pref.enabled = true ∧ ride.currentWait ≤ pref.maxWait ∧
        (ride.status = RideStatus.OPERATING ∨ ride.status = RideStatus.DOWN))
    ∧ (preferences.lookup ride.id = none →
        ride ∉ readyRides preferences snapshot)
    ∧ (∀ rid : String, (∀ x ∈ snapshot, x.id ≠ rid) →
        rid ∉ (readyRides preferences snapshot).map Ride.id) := by
  refine ⟨?_, ?_, ?_⟩
  · rw [readyRides, List.mem_filter]
    exact and_congr_right fun _ => rideQualifies_iff preferences ride
  · intro hnone hmem
    rw [readyRides, List.mem_filter] at hmem
    rw [rideQualifies_iff] at hmem
    obtain ⟨-, pref, hpref, -⟩ := hmem
    rw [hnone] at hpref
    exact Option.noConfusion hpref
  · intro rid habsent hmem
    rw [List.mem_map] at hmem
    obtain ⟨x, hx, hid⟩ := hmem
    rw [readyRides, List.mem_filter] at hx
    exact habsent x hx.1 hid

/-- C3: for every preference map, snapshot and previously-notified set,
`newReadyRides` is the snapshot filtered, in snapshot-iteration order, to
the currently-qualifying rides not previously notified; feeding one
run's `currentReadyRideIds` back as the notified set makes the next run
on the same inputs empty; and the spec's concrete scenario: preference
`{R1, enabled, maxWait 30}` with snapshot `R1 OPERATING wait 25` and an
empty notified set yields `[R1]`, then `[]` once `R1` is notified. -/
theorem newReady_diff_and_idempotent (preferences : PrefMap) (snapshot : List Ride)
    (notified : List String) :
    (newReadyRides preferences snapshot notified =
      snapshot.filter (fun ride =>
        rideQualifies preferences ride && !(notified.contains ride.id)))
    ∧ newReadyRides preferences snapshot (currentReadyRideIds preferences snapshot) = []
    ∧ newReadyRides prefsEx [rideEx] [] = [rideEx]
    ∧ newReadyRides prefsEx [rideEx] (currentReadyRideIds prefsEx [rideEx]) = [] := by
  refine ⟨?_, ?_, by decide, by decide⟩
  · rw [newReadyRides, readyRides, List.filter_filter]
    exact List.filter_congr fun x _ => Bool.and_comm _ _
  · rw [newReadyRides]
    rw [List.filter_eq_nil_iff]
    intro ride hmem
    rw [currentReadyRideIds]
    simp only [Bool.not_eq_true', Bool.not_eq_false]
    rw [contains_iff]
    exact List.mem_map_of_mem Ride.id hmem

/-- C4: for a user with a valid token the cycle replaces the
previously-notified set wholesale with `currentReadyRideIds` (the
replacement happens before any dispatch, and `processUser` takes no
delivery result, so delivery success cannot affect it); a rideId is in
the new set iff this evaluation found a qualifying snapshot ride with
that id; and a ride not qualifying this cycle that qualifies in a later
cycle lands in that later cycle's `newReadyRides` again (re-arm). -/
theorem notifiedSet_wholesale_replacement (isValid : String → Bool)
    (preferences : PrefMap) (snapshot : List Ride) (u : UserState) (tok : String)
    (htok : u.token = some tok) (hvalid : isValid tok = true) :
    ((processUser isValid preferences snapshot u).2.notified =
        currentReadyRideIds preferences snapshot)
    ∧ (∀ rid : String,
        rid ∈ (processUser isValid preferences snapshot u).2.notified ↔
          ∃ r ∈ snapshot, r.id = rid ∧ rideQualifies preferences r = true)
    ∧ (∀ (preferences2 : PrefMap) (snapshot2 : List Ride) (r : Ride),
        r ∈ snapshot2 → rideQualifies preferences2 r = true →
        r.id ∉ currentReadyRideIds preferences snapshot →
        r ∈ newReadyRides preferences2 snapshot2
            ((processUser isValid preferences snapshot u).2.notified)) := by
  have hproc : (processUser isValid preferences snapshot u).2.notified =
      currentReadyRideIds preferences snapshot := by
    simp [processUser, htok, hvalid, currentReadyRideIds]
  refine ⟨hproc, ?_, ?_⟩
  · intro rid
    rw [hproc, currentReadyRideIds, readyRides]
    simp only [List.mem_map, List.mem_filter]
    constructor
    · rintro ⟨r, ⟨hr, hq⟩, hid⟩
      exact ⟨r, hr, hid, hq⟩
    · rintro ⟨r, hr, hid, hq⟩
      exact ⟨r, ⟨hr, hq⟩, hid⟩
  · intro preferences2 snapshot2 r hmem hq hnot
    rw [newReadyRides, List.mem_filter]
    refine ⟨List.mem_filter.mpr ⟨hmem, hq⟩, ?_⟩
    rw [hproc]
    simp only [Bool.not_eq_true']
    cases hc : (currentReadyRideIds preferences snapshot).contains r.id with
    | false => rfl
    | true => exact absurd ((contains_iff _ _).mp hc) hnot

/-- Witness for C4 at the spec's concrete scenario. -/
theorem notifiedSet_wholesale_replacement_witness :
    ((processUser validAlways prefsEx [rideEx] userEx).2.notified =
        currentReadyRideIds prefsEx [rideEx])
    ∧ (∀ rid : String,
        rid ∈ (processUser validAlways prefsEx [rideEx] userEx).2.notified ↔
          ∃ r ∈ [rideEx], r.id = rid ∧ rideQualifies prefsEx r = true)
    ∧ (∀ (preferences2 : PrefMap) (snapshot2 : List Ride) (r : Ride),
        r ∈ snapshot2 → rideQualifies preferences2 r = true →
        r.id ∉ currentReadyRideIds prefsEx [rideEx] →
        r ∈ newReadyRides preferences2 snapshot2
            ((processUser validAlways prefsEx [rideEx] userEx).2.notified)) :=
  notifiedSet_wholesale_replacement validAlways prefsEx [rideEx] userEx
    "ExponentPushToken-abc" rfl rfl

/-- C10: a user with no registered token, or whose token fails the
validity test, is skipped entirely: no message is queued and the
previously-notified set is left exactly as it was. -/
theorem invalidToken_user_skipped (isValid : String → Bool) (preferences : PrefMap)
    (snapshot : List Ride) (u : UserState)
    (h : hasValidToken isValid u = false) :
    processUser isValid preferences snapshot u = ([], u) := by
  rcases u with ⟨tk, notified⟩
  cases tk with
  | none => rfl
  | some tok =>
      have hv : isValid tok = false := by simpa [hasValidToken] using h
      simp [processUser, hv]

/-- Witness for C10: a user with no token keeps their notified set. -/
theorem invalidToken_user_skipped_witness :
    processUser validAlways prefsEx [rideEx] userNoToken = ([], userNoToken) :=
  invalidToken_user_skipped validAlways prefsEx [rideEx] userNoToken rfl

/-- C5: a show's reminder fires (message emitted, `notified` set) iff
`now ≥ targetTime − travelTimeMinutes` and `notified` was false, and
independently its final warning fires iff `now ≥ targetTime − 5min` and
`finalWarningNotified` was false; both thresholds are inclusive; a show
crossing both thresholds in one evaluation emits exactly the two
distinct messages. Concretely (in ms of the local day): the 14:00 show
with 20-minute travel does not fire at 13:39, fires at 13:40 exactly,
and at 13:56 emits both messages. -/
theorem show_two_stage_reminders (now : Int) (tok : String) (s : ShowItem) :
    (showReminderMsg tok s ∈ (evalShow now tok s).1 ↔
        (s.selectedTime - s.travelTime * 60000 ≤ now ∧ s.notified = false))
    ∧ (showFinalWarningMsg tok s ∈ (evalShow now tok s).1 ↔
        (s.selectedTime - 5 * 60000 ≤ now ∧ s.finalWarningNotified = false))
    ∧ ((evalShow now tok s).2.notified =
        (s.notified || decide (s.selectedTime - s.travelTime * 60000 ≤ now)))
    ∧ ((evalShow now tok s).2.finalWarningNotified =
        (s.finalWarningNotified || decide (s.selectedTime - 5 * 60000 ≤ now)))
    ∧ ((s.selectedTime - s.travelTime * 60000 ≤ now ∧ s.notified = false ∧
          s.selectedTime - 5 * 60000 ≤ now ∧ s.finalWarningNotified = false) →
        (evalShow now tok s).1 =
          [showReminderMsg tok s, showFinalWarningMsg tok s])
    ∧ showReminderMsg tok s ≠ showFinalWarningMsg tok s
    ∧ (evalShow 49140000 "tok" showEx).1 = []
    ∧ (evalShow 49200000 "tok" showEx).1 = [showReminderMsg "tok" showEx]
    ∧ (evalShow 50160000 "tok" showEx).1 =
        [showReminderMsg "tok" showEx, showFinalWarningMsg "tok" showEx] := by
  obtain ⟨sid, sname, stime, stravel, sntf, sfw⟩ := s
  refine ⟨?_, ?_, ?_, ?_, ?_, ?_, by decide, by decide, by decide⟩ <;>
    (by_cases h1 : stime - stravel * 60000 ≤ now <;>
      by_cases h2 : stime ≤ now + 300000 <;>
      cases sntf <;> cases sfw <;>
      simp [evalShow, showReminderMsg, showFinalWarningMsg, h1, h2])

/-- The show evaluator never clears a flag. -/
theorem evalShow_flags_mono (now : Int) (tok : String) (s : ShowItem) :
    s.notified ≤ (evalShow now tok s).2.notified ∧
    s.finalWarningNotified ≤ (evalShow now tok s).2.finalWarningNotified := by
  obtain ⟨sid, sname, stime, stravel, sntf, sfw⟩ := s
  by_cases h1 : stime - stravel * 60000 ≤ now <;>
    by_cases h2 : stime ≤ now + 300000 <;>
    cases sntf <;> cases sfw <;>
    simp [evalShow, h1, h2]

/-- The dining evaluator never clears the flag. -/
theorem evalDining_flags_mono (now : Int) (tok : String) (d : DiningItem) :
    d.notified ≤ (evalDining now tok d).2.notified := by
  obtain ⟨did, dname, dtime, dtype, dtravel, dntf⟩ := d
  by_cases h1 : dtime - dtravel * 60000 ≤ now <;>
    cases dntf <;>
    simp [evalDining, h1]

/-- The Lightning Lane evaluator never clears the flag. -/
theorem evalLane_flags_mono (now : Int) (tok : String) (lane : LaneItem) :
    lane.notified ≤ (evalLane now tok lane).2.notified := by
  obtain ⟨lname, ltime, ltravel, lntf⟩ := lane
  by_cases h1 : ltime - ltravel * 60000 ≤ now <;>
    cases lntf <;>
    simp [evalLane, h1]

/-- C6: over one full `checkEventReminders` pass, every scheduled event
keeps its position, and its `notified` flag (and, for shows,
`finalWarningNotified`) never goes from true back to false: the
evaluator only ever raises flags. -/
theorem reminder_flags_monotonic (now : Int) (tok : String) (day : UserDay) :
    List.Forall₂ (fun s s' : ShowItem =>
        s.notified ≤ s'.notified ∧
          s.finalWarningNotified ≤ s'.finalWarningNotified)
      day.shows (checkEventReminders now tok day).2.shows
    ∧ List.Forall₂ (fun d d' : DiningItem => d.notified ≤ d'.notified)
      day.dining (checkEventReminders now tok day).2.dining
    ∧ List.Forall₂ (fun p p' : String × LaneItem =>
        p.1 = p'.1 ∧ p.2.notified ≤ p'.2.notified)
      day.lanes (checkEventReminders now tok day).2.lanes := by
  refine ⟨?_, ?_, ?_⟩
  · rw [checkEventReminders, List.forall₂_map_right_iff, List.forall₂_same]
    exact fun s _ => evalShow_flags_mono now tok s
  · rw [checkEventReminders, List.forall₂_map_right_iff, List.forall₂_same]
    exact fun d _ => evalDining_flags_mono now tok d
  · rw [checkEventReminders, List.forall₂_map_right_iff, List.forall₂_same]
    exact fun p _ => ⟨rfl, evalLane_flags_mono now tok p.2⟩

/-- C8: on every non-empty newly-ready list, the body the code builds
agrees with the spec's wording — exactly one ride names it and its wait;
more than one names the first plus a count of the remaining rides, with
singular grammar for exactly one other ride and plural grammar
otherwise. -/
theorem rideBody_matches_spec (firstRide : Ride) (rest : List Ride) :
    buildRideBody (firstRide :: rest) = specRideBody (firstRide :: rest) := by
  match rest with
  | [] => rfl
  | [secondRide] =>
      simp only [buildRideBody, specRideBody]
      norm_num
      exact congrArg (fun z => firstRide.name ++ z) (by decide)
  | secondRide :: thirdRide :: more =>
      simp only [buildRideBody, specRideBody, List.length_cons]
      norm_num
      exact congrArg
        (fun z => firstRide.name ++ (" and " ++ (toString (more.length + 1 + 1) ++ z)))
        (by decide)

/-- C7 counterexample: the only update (PUT) route the server registers
is the dining one — there is no update operation for shows or Lightning
Lane entries, contradicting the claim that every ScheduledEvent variant
has one. -/
theorem onlyDiningHasUpdateRoute :
    apiRoutes.filter (fun r => r.method == HttpMethod.PUT) =
      [⟨HttpMethod.PUT, "/api/users/:userId/dining/:diningId"⟩] := by
  decide

/-- C7 amended: the mutation API offers create and delete for every
ScheduledEvent variant but an update operation only for dining, and
that update applies the requested field changes and unconditionally
resets the `notified` flag to false in the same operation. -/
theorem updateDining_resets_notified (d : DiningItem) (time : Option Int)
    (dtype : Option String) (travelTime : Option Int) :
    ((updateDining d time dtype travelTime).notified = false)
    ∧ ((updateDining d time dtype travelTime).time = time.getD d.time)
    ∧ ((updateDining d time dtype travelTime).diningType = dtype.getD d.diningType)
    ∧ ((updateDining d time dtype travelTime).travelTime =
        travelTime.getD d.travelTime)
    ∧ ((apiRoutes.filter (fun r => r.method == HttpMethod.PUT)).map Route.path =
        ["/api/users/:userId/dining/:diningId"])
    ∧ Route.mk HttpMethod.POST "/api/users/:userId/shows" ∈ apiRoutes
    ∧ Route.mk HttpMethod.DELETE "/api/users/:userId/shows/:showId" ∈ apiRoutes
    ∧ Route.mk HttpMethod.POST "/api/users/:userId/dining" ∈ apiRoutes
    ∧ Route.mk HttpMethod.DELETE "/api/users/:userId/dining/:diningId" ∈ apiRoutes
    ∧ Route.mk HttpMethod.POST "/api/users/:userId/lightning-lane" ∈ apiRoutes
    ∧ Route.mk HttpMethod.DELETE "/api/users/:userId/lightning-lane/:rideId"
        ∈ apiRoutes := by
  exact ⟨rfl, rfl, rfl, rfl, by decide, by decide, by decide, by decide, by decide,
    by decide, by decide⟩

/-- Ticket reconciliation only ever shrinks the token store. -/
theorem mem_ticketFold (l : List (PushTicket × PushMessage)) :
    ∀ (toks : List (String × String)) (p : String × String),
      p ∈ l.foldl ticketStep toks → p ∈ toks := by
  induction l with
  | nil => exact fun toks p h => h
  | cons tm rest ih =>
      intro toks p h
      have h2 := ih (ticketStep toks tm) p h
      rw [ticketStep] at h2
      split at h2
      · rw [removeToken] at h2
        exact (List.mem_filter.mp h2).1
      · exact h2

/-- A `DeviceNotRegistered` ticket for message `m` inside a chunk purges
every registration holding `m`'s token from the reconciled store. -/
theorem ticketFold_removes (t : PushTicket) (m : PushMessage)
    (ht : t.status = "error") (he : t.errorDetail = some "DeviceNotRegistered") :
    ∀ (l : List (PushTicket × PushMessage)) (toks : List (String × String)),
      (t, m) ∈ l → ∀ p ∈ l.foldl ticketStep toks, p.2 ≠ m.toAddr := by
  intro l
  induction l with
  | nil =>
      intro toks hmem
      cases hmem
  | cons tm rest ih =>
      intro toks hmem p hp
      rcases List.mem_cons.mp hmem with heq | htail
      · subst heq
        have hsub := mem_ticketFold rest (ticketStep toks (t, m)) p hp
        rw [ticketStep] at hsub
        have hcond :
            (t.status == "error" && (t.errorDetail == some "DeviceNotRegistered"))
              = true := by
          rw [ht, he]
          rfl
        rw [if_pos hcond, removeToken] at hsub
        have hpred := (List.mem_filter.mp hsub).2
        simpa using hpred
      · exact ih (ticketStep toks tm) htail p hp

/-- The dispatcher's paired fold splits into its two components: every
chunk is submitted, in order, regardless of per-chunk failures, and the
token store evolves by per-chunk reconciliation. -/
theorem sendPush_fold (gateway : List PushMessage → Option (List PushTicket)) :
    ∀ (chunks : List (List PushMessage)) (acc1 : List (List PushMessage))
      (toks : List (String × String)),
      chunks.foldl
        (fun acc chunk =>
          match gateway chunk with
          | some tickets => (acc.1 ++ [chunk], processTicketChunk chunk tickets acc.2)
          | none => (acc.1 ++ [chunk], acc.2)) (acc1, toks)
        = (acc1 ++ chunks, tokensAfter gateway chunks toks) := by
  intro chunks
  induction chunks with
  | nil =>
      intro acc1 toks
      simp [tokensAfter]
  | cons c rest ih =>
      intro acc1 toks
      rw [List.foldl_cons]
      cases hg : gateway c with
      | some tickets =>
          simp only [hg]
          rw [ih]
          simp [tokensAfter, List.foldl_cons, hg]
      | none =>
          simp only [hg]
          rw [ih]
          simp [tokensAfter, List.foldl_cons, hg]

/-- The reconciled token store after any sequence of chunks is a
sub-collection of the starting one. -/
theorem mem_tokensAfter (gateway : List PushMessage → Option (List PushTicket)) :
    ∀ (chunks : List (List PushMessage)) (toks : List (String × String))
      (p : String × String), p ∈ tokensAfter gateway chunks toks → p ∈ toks := by
  intro chunks
  induction chunks with
  | nil => exact fun toks p h => h
  | cons c rest ih =>
      intro toks p hp
      rw [tokensAfter, List.foldl_cons] at hp
      have h2 := ih _ p hp
      cases hg : gateway c with
      | some tickets =>
          rw [hg] at h2
          exact mem_ticketFold _ _ _ h2
      | none =>
          rw [hg] at h2
          exact h2

/-- Once some submitted chunk reports `DeviceNotRegistered` for message
`m`, no later reconciliation re-adds `m`'s token. -/
theorem tokensAfter_removes (gateway : List PushMessage → Option (List PushTicket))
    (chunk : List PushMessage) (tickets : List PushTicket)
    (t : PushTicket) (m : PushMessage)
    (h2 : gateway chunk = some tickets) (h3 : (t, m) ∈ tickets.zip chunk)
    (h4 : t.status = "error") (h5 : t.errorDetail = some "DeviceNotRegistered") :
    ∀ (chunks : List (List PushMessage)) (toks : List (String × String)),
      chunk ∈ chunks → ∀ p ∈ tokensAfter gateway chunks toks, p.2 ≠ m.toAddr := by
  intro chunks
  induction chunks with
  | nil =>
      intro toks h
      cases h
  | cons c rest ih =>
      intro toks hmem p hp
      rw [tokensAfter, List.foldl_cons] at hp
      rcases List.mem_cons.mp hmem with heq | htail
      · subst heq
        rw [h2] at hp
        have hsub := mem_tokensAfter gateway rest _ p hp
        exact ticketFold_removes t m h4 h5 (tickets.zip chunk) toks h3 p hsub
      · exact ih _ htail p hp

/-- C9: when a per-message delivery result in any successfully-submitted
batch reports `DeviceNotRegistered` for message `m`, every registration
holding `m`'s destination token is gone from the token store when
dispatch returns; removal of an already-absent token is a no-op; and
every batch is submitted regardless of other batches throwing. -/
theorem deviceNotRegistered_retires_token
    (gateway : List PushMessage → Option (List PushTicket))
    (tokens : List (String × String)) (chunks : List (List PushMessage))
    (chunk : List PushMessage) (tickets : List PushTicket)
    (t : PushTicket) (m : PushMessage)
    (h1 : chunk ∈ chunks) (h2 : gateway chunk = some tickets)
    (h3 : (t, m) ∈ tickets.zip chunk) (h4 : t.status = "error")
    (h5 : t.errorDetail = some "DeviceNotRegistered") :
    (∀ p ∈ (sendPushNotifications gateway chunks tokens).2, p.2 ≠ m.toAddr)
    ∧ ((sendPushNotifications gateway chunks tokens).1 = chunks)
    ∧ (∀ toks : List (String × String),
        (∀ p ∈ toks, p.2 ≠ m.toAddr) → removeToken toks m.toAddr = toks) := by
  have hcomp := sendPush_fold gateway chunks [] tokens
  refine ⟨?_, ?_, ?_⟩
  · intro p hp
    rw [sendPushNotifications, hcomp] at hp
    exact tokensAfter_removes gateway chunk tickets t m h2 h3 h4 h5 chunks tokens
      h1 p hp
  · rw [sendPushNotifications, hcomp]
    exact List.nil_append chunks
  · intro toks habs
    rw [removeToken, List.filter_eq_self]
    intro a ha
    simpa using habs a ha

/-- Witness for C9: the gateway throws on the first chunk and reports
`DeviceNotRegistered` on the second; both chunks are submitted and user
`u1`'s dead token is gone. -/
theorem deviceNotRegistered_retires_token_witness :
    (∀ p ∈ (sendPushNotifications gatewayEx [[msgGood], [msgBad]] tokenStoreEx).2,
        p.2 ≠ msgBad.toAddr)
    ∧ ((sendPushNotifications gatewayEx [[msgGood], [msgBad]] tokenStoreEx).1 =
        [[msgGood], [msgBad]])
    ∧ (∀ toks : List (String × String),
        (∀ p ∈ toks, p.2 ≠ msgBad.toAddr) → removeToken toks msgBad.toAddr = toks) :=
  deviceNotRegistered_retires_token gatewayEx tokenStoreEx [[msgGood], [msgBad]]
    [msgBad] [ticketBad] ticketBad msgBad (by decide) (by decide) (by decide)
    rfl rfl

/-- C1 (violated by the code): `autoArchivePastDates` iterates only over
`userShowSchedules`, so a past date present solely in a user's dining
(or Lightning Lane) store is neither archived nor removed. With
`today = 2024-01-02` and user `u1` holding one dining reservation dated
`2024-01-01` and no show entry, the sweep is a no-op: the dining store
still holds the past date and the archive stays empty. When the same
date also carries a show entry (`mixedStore`), the sweep does archive
all three stores' contents and clears them, so the divergence is
specific to dates absent from the show store. -/
theorem archiveSweep_misses_diningOnlyDate :
    jsStrLt "2024-01-01" "2024-01-02" = true
    ∧ autoArchivePastDates "2024-01-02" diningOnlyStore = diningOnlyStore
    ∧ lookup2 diningOnlyStore.userDiningSchedules "u1" "2024-01-01"
        = some [pastDiningItem]
    ∧ diningOnlyStore.archivedSchedules = []
    ∧ autoArchivePastDates "2024-01-02" mixedStore =
        { userShowSchedules := [("u1", [])]
          userDiningSchedules := [("u1", [])]
          userLightningLanes := []
          archivedSchedules :=
            [("u1", [("2024-01-01",
              { shows := [pastShowItem], dining := [pastDiningItem],
                lightningLanes := [] })])] } := by
  exact ⟨rfl, rfl, rfl, rfl, by decide⟩

end RideMonitor
